import Mathlib

/-!
Shallow embedding of the torchrun-controller reconciliation engine
(dream3d-ai/torchrun-controller, Go).

The embedding follows the Go sources:
- `internal/controller/job/workspace_manager.go` (WorkspaceManager:
  CreateWorkspacePVC, CreateSyncPod, CheckWorkspacePVCStatus,
  buildSyncEnvironment, GetWorkspacePVCName)
- `internal/controller/job/job_manager.go` (JobManager: CreateJob,
  attachTrainerCommand, attachWorkspaceToTrainer, translateResourceNames,
  validatePodSpec)
- StatusManager (two variants present in the repository: the richer one
  with updatePreJobPhase/updateJobPhase, and the older flat one)
- `internal/controller/queue/controller.go` (addCondition)
- the TorchrunJobReconciler.Reconcile loop.

The Kubernetes object store is modelled as an explicit `World` record of
association lists keyed by object name (one namespace; every lookup in the
sources stays inside the job's namespace).  Timestamps
(`LastTransitionTime`, `LastReconcileTime`, `metav1.Now()`) are dropped:
no claim mentions them and they do not influence any branch.  `Create` of
an existing object is impossible in the embedding because every creation
site in the source is check-then-create; a `created` log records the name
of every object the controller creates so that duplicate creation is
observable.
-/

namespace Torchrun

/-- corev1.EnvVar (only the fields the controller reads). -/
structure EnvVar where
  name : String
  value : String
deriving DecidableEq, Repr

/-- corev1.PodPhase. -/
inductive PodPhase
  | pending
  | running
  | succeeded
  | failed
  | unknown
deriving DecidableEq, Repr

/-- Job/queue condition (TorchrunJobCondition / JobQueueCondition share the
same fields; LastTransitionTime is dropped). -/
structure Condition where
  type : String
  status : String
  reason : String
  message : String
deriving DecidableEq, Repr

/-- WorkspaceStorage from TorchrunJobSpec (fields the claims touch). -/
structure WorkspaceStorage where
  size : String
  image : String
  mountPath : String
  source : String
  url : String
  storageClass : String
deriving DecidableEq, Repr

/-- ReliabilityConfig. -/
structure ReliabilityConfig where
  maxRestarts : Nat
  restartPolicy : String
deriving DecidableEq, Repr

/-- DistributedConfig on the queue spec (rendezvous parameters). -/
structure DistributedConfig where
  backend : String
  rdzvBackend : String
  rdzvEndpoint : String
deriving DecidableEq, Repr

/-- corev1.VolumeMount. -/
structure VolumeMount where
  name : String
  mountPath : String
  subPath : String
  readOnly : Bool
deriving DecidableEq, Repr

/-- A container of the queue's pod template: name, optional
nvidia.com/gpu request, accumulated command, args, env and mounts. -/
structure Container where
  name : String
  gpuRequest : Option Nat
  command : List String
  args : List String
  env : List EnvVar
  volumeMounts : List VolumeMount
deriving DecidableEq, Repr

/-- corev1.VolumeSource restricted to what translateResourceNames and the
workspace wiring inspect: either a PVC claim reference or anything else. -/
inductive VolumeSource
  | pvc (claimName : String)
  | other
deriving DecidableEq, Repr

/-- corev1.Volume. -/
structure Volume where
  name : String
  source : VolumeSource
deriving DecidableEq, Repr

/-- AdditionalMount of the job spec's volume override. -/
structure AdditionalMount where
  name : String
  mountPath : String
  subPath : String
  readOnly : Bool
deriving DecidableEq, Repr

/-- VolumeOverride of the job spec. -/
structure VolumeOverride where
  additionalMounts : List AdditionalMount
  additionalVolumes : List Volume
deriving DecidableEq, Repr

/-- corev1.PodSpec as consumed by JobManager. -/
structure PodSpec where
  containers : List Container
  initContainers : List Container
  volumes : List Volume
  schedulerName : String
  restartPolicy : String
deriving DecidableEq, Repr

/-- A queue resource template.  The raw JSON template is modelled as
already-decoded: `malformed` stands for a document json.Unmarshal rejects,
`obj m` for a parsed object whose metadata.name is `m` (none when the
metadata object or its name string is absent, matching the `continue`
branches). -/
inductive RawTemplate
  | malformed
  | obj (metaName : Option String)
deriving DecidableEq, Repr

/-- ResourceTemplate of the queue spec. -/
structure ResourceTemplate where
  name : String
  nameMode : String
  template : RawTemplate
deriving DecidableEq, Repr

/-- TorchrunQueue (spec fields the job-side controller reads). -/
structure TorchrunQueue where
  name : String
  distributed : DistributedConfig
  resources : List ResourceTemplate
  /-- The pod template's spec document, modelled as already decoded;
  `none` stands for a document json.Unmarshal rejects. -/
  podTemplateSpec : Option PodSpec
  serviceAccountName : String
  kaiQueueName : String
  workspaceStorage : WorkspaceStorage
deriving DecidableEq, Repr

/-- TorchrunJobSpec (fields the claims touch). -/
structure TorchrunJobSpec where
  queue : String
  jobName : String
  jobID : String
  command : String
  setupCommand : String
  numNodes : Nat
  env : List EnvVar
  suspend : Bool
  workspaceStorage : WorkspaceStorage
  reliability : ReliabilityConfig
  volumes : Option VolumeOverride
deriving DecidableEq, Repr

/-- WorkerStatus counters. -/
structure WorkerStatus where
  ready : Nat
  running : Nat
  failed : Nat
  succeeded : Nat
deriving DecidableEq, Repr

/-- TorchrunJobStatus (timestamps other than completionTime dropped;
completionTime is an opaque Nat instant). -/
structure TorchrunJobStatus where
  phase : String
  numNodes : Nat
  workersStatus : String
  conditions : List Condition
  workers : WorkerStatus
  completionTime : Option Nat
deriving DecidableEq, Repr

/-- TorchrunJob object: metadata name, deletion-timestamp presence, spec
and status. -/
structure TorchrunJob where
  name : String
  deletionTimestamp : Bool
  spec : TorchrunJobSpec
  status : TorchrunJobStatus
deriving DecidableEq, Repr

/-- A PVC in the store: name and labels (a Go map: unique keys, modelled
as an association list read by first match and written in place). -/
structure PVC where
  name : String
  labels : List (String × String)
deriving DecidableEq, Repr

/-- A pod in the store (the sync pod): name, observed phase and the
status message the controller would surface on failure. -/
structure Pod where
  name : String
  phase : PodPhase
  message : String
deriving DecidableEq, Repr

/-- A batchv1.Job in the store: name, spec (suspend flag, parallelism =
completions = numNodes, pod template), status counters and completion
time. -/
structure KJob where
  name : String
  suspend : Bool
  parallelism : Nat
  completions : Nat
  template : PodSpec
  active : Nat
  succeeded : Nat
  failed : Nat
  completionTime : Option Nat
deriving DecidableEq, Repr

/-- The external object store visible to one job reconcile: the torchrun
job object, the queues, and the child objects, plus a log of the names of
every object the controller created (to observe duplicate creation). -/
structure World where
  job : Option TorchrunJob
  queues : List TorchrunQueue
  pvcs : List PVC
  pods : List Pod
  kjobs : List KJob
  created : List String
deriving DecidableEq, Repr

/-- First-match association-list lookup (Go map read / client.Get by
name). -/
def lookupBy {α : Type} (key : α → String) (xs : List α) (n : String) :
    Option α :=
  xs.find? (fun x => key x == n)

/-- Go map read m[k]. -/
def mapGet (m : List (String × String)) (k : String) : Option String :=
  (m.find? (fun p => p.1 == k)).map (·.2)

/-- Go map write m[k] = v: overwrite the existing key in place, else
append. -/
def mapPut (m : List (String × String)) (k v : String) :
    List (String × String) :=
  if (m.find? (fun p => p.1 == k)).isSome then
    m.map (fun p => if p.1 == k then (k, v) else p)
  else
    m ++ [(k, v)]

/-- strings.HasPrefix, modelled over the character list so it evaluates
in the kernel. -/
def strStarts (s p : String) : Bool :=
  p.data.isPrefixOf s.data

/-- strings.Contains, modelled over the character list. -/
def strContains (s sub : String) : Bool :=
  (List.range (s.data.length + 1)).any
    (fun i => sub.data.isPrefixOf (s.data.drop i))

/-! ## WorkspaceManager -/

/-- buildSyncEnvironment (workspace_manager.go): TORCHRUN_JOB_NAME first,
then the job env vars whose name carries an AWS_/GOOGLE_/AZURE_ cloud
credential marker, in order. -/
def buildSyncEnvironment (job : TorchrunJob) : List EnvVar :=
  { name := "TORCHRUN_JOB_NAME", value := job.name } ::
    job.spec.env.filter (fun e =>
      strStarts e.name "AWS_" || strStarts e.name "GOOGLE_" ||
        strStarts e.name "AZURE_")

/-- The PVC name CreateWorkspacePVC / CheckWorkspacePVCStatus /
CreateSyncPod derive from the job's object name. -/
def wmWorkspacePVCName (job : TorchrunJob) : String :=
  job.name ++ "-workspace"

/-- GetWorkspacePVCName (utils): derived from the application-level job
name. -/
def GetWorkspacePVCName (job : TorchrunJob) : String :=
  job.spec.jobName ++ "-workspace"

/-- GetSyncPodName. -/
def GetSyncPodName (job : TorchrunJob) : String :=
  job.name ++ "-sync"

/-- CreateWorkspacePVC: check-then-create of the job.Name-derived PVC.
The created PVC carries sync-completed=false. -/
def CreateWorkspacePVC (w : World) (job : TorchrunJob) : World :=
  let name := wmWorkspacePVCName job
  match lookupBy PVC.name w.pvcs name with
  | some _ => w
  | none =>
      { w with
        pvcs := w.pvcs ++
          [{ name := name,
             labels := [("torchrun.ai/job-name", job.name),
                        ("torchrun.ai/type", "workspace"),
                        ("torchrun.ai/sync-completed", "false")] }],
        created := w.created ++ [name] }

/-- Errors a store-backed call can surface to its caller. -/
inductive OpError
  | notFound (name : String)
deriving DecidableEq, Repr

/-- CreateSyncPod: skip if the pod exists; fail if the PVC is absent;
skip if the PVC already carries sync-completed=true; else create the pod
(a fresh pod is observed Pending). -/
def CreateSyncPod (w : World) (job : TorchrunJob) :
    Except OpError Unit × World :=
  let podName := GetSyncPodName job
  match lookupBy Pod.name w.pods podName with
  | some _ => (.ok (), w)
  | none =>
    match lookupBy PVC.name w.pvcs (wmWorkspacePVCName job) with
    | none => (.error (.notFound (wmWorkspacePVCName job)), w)
    | some pvc =>
      if mapGet pvc.labels "torchrun.ai/sync-completed" == some "true" then
        (.ok (), w)
      else
        (.ok (), { w with
          pods := w.pods ++ [{ name := podName, phase := .pending,
                               message := "" }],
          created := w.created ++ [podName] })

/-- CheckWorkspacePVCStatus: error if the PVC is absent; true if the
label is already set; else inspect the sync pod: absent → (false, no
error); Succeeded → patch the label to true and return true; any other
phase → (false, no error).  Note the source has no branch for a Failed
pod: it falls through to the final return. -/
def CheckWorkspacePVCStatus (w : World) (job : TorchrunJob) :
    Except OpError Bool × World :=
  let pvcName := wmWorkspacePVCName job
  match lookupBy PVC.name w.pvcs pvcName with
  | none => (.error (.notFound pvcName), w)
  | some pvc =>
    if mapGet pvc.labels "torchrun.ai/sync-completed" == some "true" then
      (.ok true, w)
    else
      match lookupBy Pod.name w.pods (GetSyncPodName job) with
      | none => (.ok false, w)
      | some pod =>
        if pod.phase = .succeeded then
          (.ok true, { w with
            pvcs := w.pvcs.map (fun p =>
              if p.name == pvcName then
                { p with labels :=
                    mapPut p.labels "torchrun.ai/sync-completed" "true" }
              else p) })
        else
          (.ok false, w)

/-! ## Condition upsert (StatusManager.UpdateCondition and the queue
controller's addCondition share the identical algorithm) -/

/-- StatusManager.UpdateCondition: find the first condition of the same
type; replace it only when the status differs, else leave the list
untouched; append when the type is absent. -/
def UpdateCondition (conds : List Condition)
    (condType status reason message : String) : List Condition :=
  match conds with
  | [] => [{ type := condType, status := status, reason := reason,
             message := message }]
  | c :: rest =>
    if c.type == condType then
      if c.status == status then c :: rest
      else { type := condType, status := status, reason := reason,
             message := message } :: rest
    else
      c :: UpdateCondition rest condType status reason message

/-- TorchrunQueueReconciler.addCondition: the same upsert algorithm over
the queue's condition list. -/
def addCondition (conds : List Condition)
    (condType status reason message : String) : List Condition :=
  match conds with
  | [] => [{ type := condType, status := status, reason := reason,
             message := message }]
  | c :: rest =>
    if c.type == condType then
      if c.status == status then c :: rest
      else { type := condType, status := status, reason := reason,
             message := message } :: rest
    else
      c :: addCondition rest condType status reason message

/-! ## JobManager -/

/-- TorchrunJob phase constants (internal/v1alpha1). -/
def PhaseRunning : String := "Running"

def PhasePending : String := "Pending"

def PhaseSyncing : String := "Syncing"

def PhaseSucceeded : String := "Succeeded"

def PhaseSuspended : String := "Suspended"

def PhaseDeleted : String := "Deleted"

def PhaseFailed : String := "Failed"

def PhaseQueued : String := "Queued"

/-- Update the first container of a pod spec (podSpec.Containers[0] in a
flow where validatePodSpec has guaranteed at least one container). -/
def setFirstContainer (podSpec : PodSpec) (f : Container → Container) :
    PodSpec :=
  { podSpec with
    containers :=
      match podSpec.containers with
      | [] => []
      | c :: rest => f c :: rest }

/-- The nproc lookup of attachTrainerCommand: scan all containers; every
container named trainer with an nvidia.com/gpu request overwrites the
accumulator (starting from 0). -/
def trainerNproc (podSpec : PodSpec) : Nat :=
  podSpec.containers.foldl
    (fun acc c =>
      if c.name == "trainer" then
        match c.gpuRequest with
        | some v => v
        | none => acc
      else acc) 0

/-- The in-place default applied by attachTrainerCommand: an empty
rendezvous backend becomes c10d. -/
def effectiveRdzvBackend (jq : TorchrunQueue) : String :=
  if jq.distributed.rdzvBackend == "" then "c10d"
  else jq.distributed.rdzvBackend

/-- The cmdParts list attachTrainerCommand assembles (job_manager.go):
optional setup command, torchrun, the node configuration (multi-node with
node rank and the rendezvous triple when NumNodes > 1, standalone
otherwise), then the user command. -/
def trainerCmdParts (job : TorchrunJob) (jq : TorchrunQueue)
    (podSpec : PodSpec) : List String :=
  let setup :=
    if job.spec.setupCommand != "" then [job.spec.setupCommand, "&&"]
    else []
  let nproc := trainerNproc podSpec
  let nodeCfg :=
    if job.spec.numNodes > 1 then
      ["--node_rank", "$(JOB_COMPLETION_INDEX)",
       "--nnodes", toString job.spec.numNodes,
       "--nproc-per-node", toString nproc,
       "--rdzv-backend", effectiveRdzvBackend jq,
       "--rdzv-endpoint", jq.distributed.rdzvEndpoint,
       "--rdzv-id", job.spec.jobName,
       "--no-python"]
    else
      ["--standalone",
       "--nproc-per-node", toString nproc,
       "--rdzv-id", job.spec.jobName,
       "--no-python"]
  setup ++ ["torchrun"] ++ nodeCfg ++ [job.spec.command]

/-- attachTrainerCommand: joins the cmdParts with spaces into the first
container's /bin/bash -c command. -/
def attachTrainerCommand (job : TorchrunJob) (jq : TorchrunQueue)
    (podSpec : PodSpec) : PodSpec :=
  setFirstContainer podSpec (fun c =>
    { c with command :=
        ["/bin/bash", "-c", " ".intercalate (trainerCmdParts job jq podSpec)] })

/-- attachEnvironment: appends the job env to the first container. -/
def attachEnvironment (job : TorchrunJob) (podSpec : PodSpec) : PodSpec :=
  setFirstContainer podSpec (fun c =>
    { c with env := c.env ++ job.spec.env })

/-- attachVolumes: appends the job's additional volumes and mounts. -/
def attachVolumes (job : TorchrunJob) (podSpec : PodSpec) : PodSpec :=
  match job.spec.volumes with
  | none => podSpec
  | some vo =>
    let ps := { podSpec with volumes := podSpec.volumes ++ vo.additionalVolumes }
    setFirstContainer ps (fun c =>
      { c with volumeMounts := c.volumeMounts ++
          vo.additionalMounts.map (fun m =>
            { name := m.name, mountPath := m.mountPath,
              subPath := m.subPath, readOnly := m.readOnly }) })

/-- attachWorkspaceToTrainer (job_manager.go): appends the workspace-sync
init container, mounts the scratch workspace volume on the trainer, and
appends the workspace-pvc volume (claiming GetWorkspacePVCName job, the
jobName-derived PVC) plus the emptyDir scratch volume. -/
def attachWorkspaceToTrainer (job : TorchrunJob) (jq : TorchrunQueue)
    (podSpec : PodSpec) : PodSpec :=
  let initC : Container :=
    { name := "workspace-sync",
      gpuRequest := none,
      command := ["/bin/sh", "-c"],
      args := ["while [ ! -f /workspace-pvc/.sync_success ]; do echo " ++
        "'Waiting for workspace sync...'; sleep 5; done; cp -r " ++
        "/workspace-pvc/* " ++ jq.workspaceStorage.mountPath],
      env := [],
      volumeMounts :=
        [{ name := "workspace-pvc", mountPath := "/workspace-pvc",
           subPath := "", readOnly := true },
         { name := "workspace", mountPath := jq.workspaceStorage.mountPath,
           subPath := "", readOnly := false }] }
  let ps := { podSpec with initContainers := podSpec.initContainers ++ [initC] }
  let ps := setFirstContainer ps (fun c =>
    { c with volumeMounts := c.volumeMounts ++
        [{ name := "workspace", mountPath := jq.workspaceStorage.mountPath,
           subPath := "", readOnly := false }] })
  { ps with volumes := ps.volumes ++
      [{ name := "workspace-pvc",
         source := .pvc (GetWorkspacePVCName job) },
       { name := "workspace", source := .other }] }

/-- validatePodSpec: at least one container, the first named trainer, and
no later container reusing the name. -/
def validatePodSpec (podSpec : PodSpec) : Except String Unit :=
  match podSpec.containers with
  | [] => .error "pod spec must have at least one container"
  | c :: rest =>
    if c.name != "trainer" then
      .error ("first container must be named 'trainer' (this is a " ++
        "reserved container name for the training workload)")
    else if rest.any (fun x => x.name == "trainer") then
      .error "only the first container can be named 'trainer'"
    else
      .ok ()

/-- The actual object name a queue resource is provisioned under: the
declared name, or queueName-declaredName under the prefixed naming
mode. -/
def resourceActualName (jqName : String) (r : ResourceTemplate) : String :=
  if r.nameMode == "prefix" then jqName ++ "-" ++ r.name else r.name

/-- The original-name → actual-name map translateResourceNames builds: a
malformed template aborts; a template without metadata.name is skipped;
otherwise the parsed metadata.name maps to the actual name (a Go map
write: a repeated original name is overwritten). -/
def buildResourceNameMap (jq : TorchrunQueue) :
    Except String (List (String × String)) :=
  jq.resources.foldlM
    (fun m r =>
      match r.template with
      | .malformed =>
          .error ("failed to unmarshal resource template " ++ r.name)
      | .obj none => .ok m
      | .obj (some originalName) =>
          .ok (mapPut m originalName (resourceActualName jq.name r))) []

/-- translateResourceNames (job_manager.go): rewrite every PVC claim
reference that appears in the name map; leave every other volume
untouched. -/
def translateResourceNames (podSpec : PodSpec) (jq : TorchrunQueue) :
    Except String PodSpec :=
  match buildResourceNameMap jq with
  | .error e => .error e
  | .ok m =>
    .ok { podSpec with
          volumes := podSpec.volumes.map (fun vol =>
            match vol.source with
            | .pvc claimName =>
              match mapGet m claimName with
              | some actualName => { vol with source := .pvc actualName }
              | none => vol
            | .other => vol) }

/-- CreateJob (job_manager.go): parse the queue pod template, validate,
translate resource names, set scheduler and restart policy, wire the
workspace, command, environment and volumes, then check-then-create the
batch job named after the torchrun job object. -/
def CreateJob (w : World) (job : TorchrunJob) (jq : TorchrunQueue) :
    Except String Unit × World :=
  match jq.podTemplateSpec with
  | none => (.error "error unmarshalling pod template spec", w)
  | some podSpec0 =>
    match validatePodSpec podSpec0 with
    | .error e => (.error e, w)
    | .ok () =>
      match translateResourceNames podSpec0 jq with
      | .error e => (.error e, w)
      | .ok ps1 =>
        let ps2 := { ps1 with schedulerName := "kai-scheduler",
                              restartPolicy := job.spec.reliability.restartPolicy }
        let ps3 := attachWorkspaceToTrainer job jq ps2
        let ps4 := attachTrainerCommand job jq ps3
        let ps5 := attachEnvironment job ps4
        let ps6 := attachVolumes job ps5
        match lookupBy KJob.name w.kjobs job.name with
        | some _ => (.ok (), w)
        | none =>
          (.ok (), { w with
            kjobs := w.kjobs ++
              [{ name := job.name,
                 suspend := job.spec.suspend,
                 parallelism := job.spec.numNodes,
                 completions := job.spec.numNodes,
                 template := ps6,
                 active := 0, succeeded := 0, failed := 0,
                 completionTime := none }],
            created := w.created ++ [job.name] })

/-! ## StatusManager (part_005 variant: updatePreJobPhase /
updateJobPhase) -/

/-- isWorkspaceReady (StatusManager): reads the PVC named by
GetWorkspacePVCName (the jobName-derived name) and its sync-completed
label. -/
def isWorkspaceReady (w : World) (job : TorchrunJob) :
    Except OpError Bool :=
  match lookupBy PVC.name w.pvcs (GetWorkspacePVCName job) with
  | none => .error (.notFound (GetWorkspacePVCName job))
  | some pvc =>
      .ok (mapGet pvc.labels "torchrun.ai/sync-completed" == some "true")

/-- updatePhase: set the phase and persist the job's status into the
store (the last-reconcile timestamp is dropped from the model). -/
def updatePhase (w : World) (job : TorchrunJob) (phase : String) : World :=
  let jobOut := { job with status := { job.status with phase := phase } }
  { w with job := some jobOut }

/-- updatePreJobPhase: the batch job does not exist yet; Pending on a
workspace lookup error, Queued when ready, Syncing otherwise. -/
def updatePreJobPhase (w : World) (job : TorchrunJob) : World :=
  let phase :=
    match isWorkspaceReady w job with
    | .error _ => PhasePending
    | .ok true => PhaseQueued
    | .ok false => PhaseSyncing
  updatePhase w job phase

/-- The workers-status summary string recomputed by updateJobPhase. -/
def workersStatusString (st : TorchrunJobStatus) (phase : String) : String :=
  if st.numNodes > 0 && phase == PhaseRunning then
    toString st.workers.running ++ "/" ++ toString st.numNodes ++ " running"
  else if st.numNodes > 0 && phase == PhaseSucceeded then
    toString st.workers.succeeded ++ "/" ++ toString st.numNodes ++ " succeeded"
  else if st.numNodes > 0 && phase == PhaseFailed then
    toString st.workers.failed ++ "/" ++ toString st.numNodes ++ " failed"
  else
    toString st.workers.ready ++ "/" ++ toString st.numNodes ++ " ready"

/-- updateJobPhase (part_005): record the batch job's counters, derive
the phase (Suspended, then Running on active replicas, then Succeeded on
succeeded replicas with first-write-wins completion time, then Failed,
else the workspace-readiness fallback), recompute the workers-status
string, and persist. -/
def updateJobPhase (w : World) (job : TorchrunJob) (k : KJob) : World :=
  let st0 := job.status
  let st1 := { st0 with
    workers := { st0.workers with
      running := k.active, succeeded := k.succeeded, failed := k.failed } }
  let pr : String × TorchrunJobStatus :=
    if k.suspend then (PhaseSuspended, st1)
    else if k.active > 0 then (PhaseRunning, st1)
    else if k.succeeded > 0 then
      (PhaseSucceeded,
        if st1.completionTime = none && k.completionTime != none then
          { st1 with completionTime := k.completionTime }
        else st1)
    else if k.failed > 0 then (PhaseFailed, st1)
    else
      (match isWorkspaceReady w job with
       | .error _ => PhasePending
       | .ok true => PhaseQueued
       | .ok false => PhaseSyncing, st1)
  let st3 := { pr.2 with workersStatus := workersStatusString pr.2 pr.1 }
  updatePhase w { job with status := st3 } pr.1

/-- UpdateStatus (part_005): Deleted short-circuits on a deletion
timestamp; otherwise the phase is derived from the batch job when it
exists and from the workspace otherwise. -/
def UpdateStatus (w : World) (job : TorchrunJob) : World :=
  if job.deletionTimestamp then
    updatePhase w job PhaseDeleted
  else
    match lookupBy KJob.name w.kjobs job.name with
    | none => updatePreJobPhase w job
    | some k => updateJobPhase w job k

/-! ## StatusManager (part_006 variant: flat UpdateStatus) -/

/-- UpdateStatus of the older StatusManager (part_006): the batch job is
fetched first — when it is absent the phase becomes Pending regardless of
the deletion timestamp; when it exists, deletion, suspension and the
counters are consulted in order, with no else branch. -/
def UpdateStatusV2 (w : World) (job : TorchrunJob) : World :=
  match lookupBy KJob.name w.kjobs job.name with
  | none =>
    let jobOut := { job with status := { job.status with phase := PhasePending } }
    { w with job := some jobOut }
  | some k =>
    let st0 := job.status
    let st1 :=
      if job.deletionTimestamp then { st0 with phase := PhaseDeleted }
      else if job.spec.suspend then { st0 with phase := PhaseSuspended }
      else if k.active > 0 then
        { st0 with phase := PhaseRunning,
                   workers := { st0.workers with running := k.active } }
      else if k.succeeded > 0 then
        let wrk := { st0.workers with succeeded := k.succeeded }
        let stS := { st0 with phase := PhaseSucceeded, workers := wrk }
        if stS.completionTime = none then
          { stS with completionTime := k.completionTime }
        else stS
      else if k.failed > 0 then
        { st0 with phase := PhaseFailed,
                   workers := { st0.workers with failed := k.failed } }
      else st0
    let ws := toString st1.workers.ready ++ "/" ++ toString st1.numNodes ++ " ready"
    let st2 := { st1 with workersStatus := ws }
    let jobOut := { job with status := st2 }
    { w with job := some jobOut }

/-! ## TorchrunJobReconciler (part_003 Reconcile) -/

/-- The result handed back to the controller-runtime framework. -/
inductive ReconcileOutcome
  | ok (requeueAfterSeconds : Option Nat)
  | err
deriving DecidableEq, Repr

/-- Set a condition on the in-memory job object (statusManager.
UpdateCondition mutates the job var; persistence happens at the next
status write). -/
def jobWithCondition (job : TorchrunJob) (t s r m : String) : TorchrunJob :=
  { job with status := { job.status with
      conditions := UpdateCondition job.status.conditions t s r m } }

/-- The message the store renders for an error, as seen by
strings.Contains in the reconciler. -/
def opErrorMessage : OpError → String
  | .notFound n => "\"" ++ n ++ "\" not found"

/-- Reconcile (part_003): fetch the job (absent → no-op); stop on a
deletion timestamp; resolve the queue (missing → QueueNotFound condition,
phase Failed, persist, stop); ensure the workspace PVC; check workspace
readiness (an error matching "sync pod failed" would be terminal, any
other error is returned for backoff); on ready create the batch job and
poll at 10s, on not-ready create the sync pod and poll at 5s, updating
status in both paths. -/
def Reconcile (w : World) : ReconcileOutcome × World :=
  match w.job with
  | none => (.ok none, w)
  | some job =>
    if job.deletionTimestamp then (.ok none, w)
    else
      match lookupBy TorchrunQueue.name w.queues job.spec.queue with
      | none =>
        let job1 := jobWithCondition job "QueueNotFound" "False"
          "QueueNotFound" ("TorchrunQueue " ++ job.spec.queue ++ " not found")
        let job2 := { job1 with status := { job1.status with phase := PhaseFailed } }
        (.ok none, { w with job := some job2 })
      | some jq =>
        let w1 := CreateWorkspacePVC w job
        match CheckWorkspacePVCStatus w1 job with
        | (.error e, w2) =>
          if strContains (opErrorMessage e) "sync pod failed" then
            let job1 := jobWithCondition job "WorkspaceSync" "False"
              "SyncFailed" (opErrorMessage e)
            let job2 := { job1 with status := { job1.status with phase := PhaseFailed } }
            (.ok none, { w2 with job := some job2 })
          else
            (.err, w2)
        | (.ok true, w2) =>
          let job1 := jobWithCondition job "WorkspaceReady" "True"
            "WorkspaceReady" "Workspace sync completed successfully"
          match CreateJob w2 job1 jq with
          | (.error e, w3) =>
            let job2 := jobWithCondition job1 "JobCreated" "False"
              "CreateFailed" e
            (.err, { w3 with job := some job2 })
          | (.ok (), w3) =>
            let job2 := jobWithCondition job1 "JobCreated" "True"
              "JobCreated" "Kubernetes Job created successfully"
            (.ok (some 10), UpdateStatus w3 job2)
        | (.ok false, w2) =>
          match CreateSyncPod w2 job with
          | (.error _, w3) => (.err, w3)
          | (.ok (), w3) =>
            let job1 := jobWithCondition job "WorkspaceSync" "True"
              "SyncInProgress" "Workspace sync pod created and running"
            (.ok (some 5), UpdateStatus w3 job1)

/-- The phase stored on the job object of a world (empty when the job is
absent). -/
def worldPhase (w : World) : String :=
  match w.job with
  | none => ""
  | some job => job.status.phase

/-- The completion time stored on the job object of a world. -/
def worldCompletionTime (w : World) : Option Nat :=
  match w.job with
  | none => none
  | some job => job.status.completionTime

/-- Whether the PVC named n exists and carries sync-completed=true. -/
def labelSyncCompleted (w : World) (n : String) : Bool :=
  match lookupBy PVC.name w.pvcs n with
  | none => false
  | some pvc => mapGet pvc.labels "torchrun.ai/sync-completed" == some "true"

/-! ## Concrete fixtures used by the witnesses -/

def sampleStorage : WorkspaceStorage :=
  { size := "10Gi", image := "sync-img", mountPath := "/app",
    source := "zip", url := "", storageClass := "standard" }

def sampleReliability : ReliabilityConfig :=
  { maxRestarts := 3, restartPolicy := "OnFailure" }

def sampleDistributed : DistributedConfig :=
  { backend := "nccl", rdzvBackend := "etcd-v2",
    rdzvEndpoint := "etcd.etcd-system.svc.cluster.local:2379" }

def sampleSpec : TorchrunJobSpec :=
  { queue := "dev", jobName := "train", jobID := "id-1",
    command := "python train.py", setupCommand := "",
    numNodes := 1, env := [], suspend := false,
    workspaceStorage := sampleStorage, reliability := sampleReliability,
    volumes := none }

def emptyStatus : TorchrunJobStatus :=
  { phase := "", numNodes := 0, workersStatus := "", conditions := [],
    workers := { ready := 0, running := 0, failed := 0, succeeded := 0 },
    completionTime := none }

def sampleJob : TorchrunJob :=
  { name := "job1", deletionTimestamp := false, spec := sampleSpec,
    status := emptyStatus }

def trainerContainer : Container :=
  { name := "trainer", gpuRequest := some 8, command := [], args := [],
    env := [], volumeMounts := [] }

def samplePodSpec : PodSpec :=
  { containers := [trainerContainer], initContainers := [], volumes := [],
    schedulerName := "", restartPolicy := "" }

def sampleQueue : TorchrunQueue :=
  { name := "dev", distributed := sampleDistributed, resources := [],
    podTemplateSpec := some samplePodSpec,
    serviceAccountName := "default", kaiQueueName := "dev-kai",
    workspaceStorage := sampleStorage }

/-! ## C10: the sync pod environment -/

/-- C10: the sync pod environment is exactly TORCHRUN_JOB_NAME (set to
the job's object name) followed by the job env vars whose names carry an
AWS_/GOOGLE_/AZURE_ marker, in their original order; and any two job env
lists agreeing on those entries give the same sync environment, so
adding, removing or changing a variable without such a marker leaves the
sync pod environment unchanged. -/
theorem c10_sync_env_exact_and_isolated :
    (∀ job : TorchrunJob,
      buildSyncEnvironment job =
        { name := "TORCHRUN_JOB_NAME", value := job.name } ::
          job.spec.env.filter (fun e =>
            strStarts e.name "AWS_" || strStarts e.name "GOOGLE_" ||
              strStarts e.name "AZURE_")) ∧
    (∀ (job : TorchrunJob) (env1 env2 : List EnvVar),
      env1.filter (fun e =>
          strStarts e.name "AWS_" || strStarts e.name "GOOGLE_" ||
            strStarts e.name "AZURE_") =
        env2.filter (fun e =>
          strStarts e.name "AWS_" || strStarts e.name "GOOGLE_" ||
            strStarts e.name "AZURE_") →
      buildSyncEnvironment { job with spec := { job.spec with env := env1 } } =
        buildSyncEnvironment { job with spec := { job.spec with env := env2 } }) := by
  constructor
  · intro job
    rfl
  · intro job env1 env2 h
    simp only [buildSyncEnvironment]
    rw [h]

/-- Witness for C10 at a concrete input: a non-cloud variable swap leaves
the sync environment unchanged. -/
theorem c10_sync_env_witness :
    buildSyncEnvironment
        { sampleJob with spec :=
            { sampleSpec with env :=
                [{ name := "AWS_SECRET", value := "k" },
                 { name := "FOO", value := "1" }] } } =
      buildSyncEnvironment
        { sampleJob with spec :=
            { sampleSpec with env :=
                [{ name := "AWS_SECRET", value := "k" },
                 { name := "BAR", value := "2" }] } } :=
  c10_sync_env_exact_and_isolated.2 sampleJob
    [{ name := "AWS_SECRET", value := "k" }, { name := "FOO", value := "1" }]
    [{ name := "AWS_SECRET", value := "k" }, { name := "BAR", value := "2" }]
    (by decide)

/-! ## C5: condition upsert -/

/-- addCondition and UpdateCondition implement the same upsert. -/
theorem addCondition_eq_updateCondition (l : List Condition)
    (t s r m : String) :
    addCondition l t s r m = UpdateCondition l t s r m := by
  induction l with
  | nil => rfl
  | cons c rest ih =>
    simp only [addCondition, UpdateCondition, ih]

/-- The condition types after an upsert: unchanged when the type is
present, the type appended otherwise. -/
theorem updateCondition_map_type (l : List Condition) (t s r m : String) :
    (UpdateCondition l t s r m).map Condition.type =
      if t ∈ l.map Condition.type then l.map Condition.type
      else l.map Condition.type ++ [t] := by
  induction l with
  | nil => simp [UpdateCondition]
  | cons c rest ih =>
    by_cases h1 : c.type = t
    · by_cases h2 : c.status = s
      · simp [UpdateCondition, h1, h2]
      · simp [UpdateCondition, h1, h2]
    · by_cases h3 : t ∈ rest.map Condition.type
      · simp [UpdateCondition, h1, ih, h3, Ne.symm h1]
      · simp [UpdateCondition, h1, ih, h3, Ne.symm h1]

/-- An upsert preserves pairwise-distinct condition types. -/
theorem updateCondition_nodup (l : List Condition) (t s r m : String)
    (h : (l.map Condition.type).Nodup) :
    ((UpdateCondition l t s r m).map Condition.type).Nodup := by
  rw [updateCondition_map_type]
  split
  · exact h
  · next hni => simp [List.nodup_append, h, hni]

/-- Upserting the same type with an unchanged status is a no-op, for any
reason/message. -/
theorem updateCondition_twice_same (l : List Condition)
    (t s r m r' m' : String) :
    UpdateCondition (UpdateCondition l t s r m) t s r' m' =
      UpdateCondition l t s r m := by
  induction l with
  | nil => simp [UpdateCondition]
  | cons c rest ih =>
    by_cases h1 : c.type = t
    · by_cases h2 : c.status = s
      · simp [UpdateCondition, h1, h2]
      · simp [UpdateCondition, h1, h2]
    · simp [UpdateCondition, h1, ih]

/-- Any upsert sequence starting from no conditions keeps the types
pairwise distinct. -/
theorem updateCondition_fold_nodup
    (ops : List (String × String × String × String))
    (init : List Condition) (h : (init.map Condition.type).Nodup) :
    (((ops.foldl
        (fun l o => UpdateCondition l o.1 o.2.1 o.2.2.1 o.2.2.2) init)).map
      Condition.type).Nodup := by
  induction ops generalizing init with
  | nil => simpa using h
  | cons o rest ih =>
    exact ih _ (updateCondition_nodup _ _ _ _ _ h)

/-- C5: for every sequence of condition upserts from an initially empty
condition list — UpdateCondition on jobs, addCondition on queues — the
resulting list has at most one entry per type; and a repeated upsert with
an unchanged status value is a no-op (in particular the length is
unchanged, and reason/message churn alone changes nothing). -/
theorem c5_condition_upsert_unique_and_stable :
    (∀ ops : List (String × String × String × String),
      (((ops.foldl (fun l o => UpdateCondition l o.1 o.2.1 o.2.2.1 o.2.2.2)
          []).map Condition.type).Nodup) ∧
      (((ops.foldl (fun l o => addCondition l o.1 o.2.1 o.2.2.1 o.2.2.2)
          []).map Condition.type).Nodup)) ∧
    (∀ (l : List Condition) (t s r m r' m' : String),
      UpdateCondition (UpdateCondition l t s r m) t s r' m' =
        UpdateCondition l t s r m ∧
      addCondition (addCondition l t s r m) t s r' m' =
        addCondition l t s r m ∧
      (UpdateCondition (UpdateCondition l t s r m) t s r' m').length =
        (UpdateCondition l t s r m).length) := by
  constructor
  · intro ops
    constructor
    · exact updateCondition_fold_nodup ops [] (by simp)
    · simp only [addCondition_eq_updateCondition]
      exact updateCondition_fold_nodup ops [] (by simp)
  · intro l t s r m r' m'
    refine ⟨updateCondition_twice_same l t s r m r' m', ?_, ?_⟩
    · simp only [addCondition_eq_updateCondition]
      exact updateCondition_twice_same l t s r m r' m'
    · rw [updateCondition_twice_same l t s r m r' m']

/-! ## C3: trainer command synthesis -/

/-- C3: with numNodes = 1 the synthesized trainer command is the
standalone single-process torchrun launch; with numNodes > 1 it carries
the per-replica node-rank substitution ($(JOB_COMPLETION_INDEX), the
replica's ordinal index) and the full rendezvous triple — backend,
endpoint and id — with the job's application-level name (spec.jobName) as
the rendezvous id. -/
theorem c3_command_synthesis (job : TorchrunJob) (jq : TorchrunQueue)
    (ps : PodSpec) :
    (job.spec.numNodes = 1 →
      trainerCmdParts job jq ps =
        (if job.spec.setupCommand != "" then [job.spec.setupCommand, "&&"]
         else []) ++
        ["torchrun", "--standalone",
         "--nproc-per-node", toString (trainerNproc ps),
         "--rdzv-id", job.spec.jobName, "--no-python", job.spec.command]) ∧
    (job.spec.numNodes > 1 →
      List.IsInfix ["--node_rank", "$(JOB_COMPLETION_INDEX)"]
        (trainerCmdParts job jq ps) ∧
      List.IsInfix
        ["--rdzv-backend", effectiveRdzvBackend jq,
         "--rdzv-endpoint", jq.distributed.rdzvEndpoint,
         "--rdzv-id", job.spec.jobName]
        (trainerCmdParts job jq ps)) := by
  constructor
  · intro h1
    simp [trainerCmdParts, h1]
  · intro h2
    constructor
    · refine ⟨(if job.spec.setupCommand != "" then
          [job.spec.setupCommand, "&&"] else []) ++ ["torchrun"],
        ["--nnodes", toString job.spec.numNodes,
         "--nproc-per-node", toString (trainerNproc ps),
         "--rdzv-backend", effectiveRdzvBackend jq,
         "--rdzv-endpoint", jq.distributed.rdzvEndpoint,
         "--rdzv-id", job.spec.jobName,
         "--no-python", job.spec.command], ?_⟩
      simp [trainerCmdParts, h2]
    · refine ⟨(if job.spec.setupCommand != "" then
          [job.spec.setupCommand, "&&"] else []) ++
        ["torchrun", "--node_rank", "$(JOB_COMPLETION_INDEX)",
         "--nnodes", toString job.spec.numNodes,
         "--nproc-per-node", toString (trainerNproc ps)],
        ["--no-python", job.spec.command], ?_⟩
      simp [trainerCmdParts, h2]

def c3Job1 : TorchrunJob :=
  { sampleJob with spec := { sampleSpec with numNodes := 1 } }

def c3Job2 : TorchrunJob :=
  { sampleJob with spec := { sampleSpec with numNodes := 2 } }

/-- Witness for C3: both branches of the command-synthesis theorem at
concrete one-node and two-node jobs. -/
theorem c3_command_synthesis_witness :
    (trainerCmdParts c3Job1 sampleQueue samplePodSpec =
      (if c3Job1.spec.setupCommand != "" then
         [c3Job1.spec.setupCommand, "&&"] else []) ++
      ["torchrun", "--standalone",
       "--nproc-per-node", toString (trainerNproc samplePodSpec),
       "--rdzv-id", c3Job1.spec.jobName, "--no-python",
       c3Job1.spec.command]) ∧
    (List.IsInfix ["--node_rank", "$(JOB_COMPLETION_INDEX)"]
        (trainerCmdParts c3Job2 sampleQueue samplePodSpec) ∧
      List.IsInfix
        ["--rdzv-backend", effectiveRdzvBackend sampleQueue,
         "--rdzv-endpoint", sampleQueue.distributed.rdzvEndpoint,
         "--rdzv-id", c3Job2.spec.jobName]
        (trainerCmdParts c3Job2 sampleQueue samplePodSpec)) :=
  ⟨(c3_command_synthesis c3Job1 sampleQueue samplePodSpec).1 (by decide),
   (c3_command_synthesis c3Job2 sampleQueue samplePodSpec).2 (by decide)⟩

/-! ## C4: resource-name translation -/

def c4ExactQueue : TorchrunQueue :=
  { sampleQueue with resources :=
      [{ name := "datasets", nameMode := "exact",
         template := .obj (some "juicefs-datasets") }] }

def c4PodSpecEx : PodSpec :=
  { samplePodSpec with volumes :=
      [{ name := "data", source := .pvc "juicefs-datasets" }] }

/-- C4 counterexample: under the exact naming mode, a volume claim whose
name equals the resource template's metadata.name IS rewritten — to the
resource's declared name — whenever the two differ, so the claim's
"never rewritten" part fails at this input. -/
theorem c4_translate_exact_rewritten_counterexample :
    translateResourceNames c4PodSpecEx c4ExactQueue =
      .ok { c4PodSpecEx with volumes :=
              [{ name := "data", source := .pvc "datasets" }] } ∧
    ({ name := "data", source := .pvc "datasets" } : Volume) ≠
      { name := "data", source := .pvc "juicefs-datasets" } := by
  constructor
  · rfl
  · decide

/-- C4 amended: for a queue named dev declaring the resource datasets
with template metadata.name m — under the prefixed naming mode every
volume claim equal to m is rewritten to dev-datasets and every other
claim (and every non-PVC volume) is untouched; under the exact naming
mode the claim equal to m is rewritten to the declared name datasets
itself (hence left unchanged precisely when m is the declared name). -/
theorem c4_translate_amended (m : String) (ps : PodSpec) :
    (translateResourceNames ps
        { sampleQueue with resources :=
            [{ name := "datasets", nameMode := "prefix",
               template := .obj (some m) }] } =
      .ok { ps with volumes := ps.volumes.map (fun vol =>
              match vol.source with
              | .pvc c =>
                if c = m then { vol with source := .pvc "dev-datasets" }
                else vol
              | .other => vol) }) ∧
    (translateResourceNames ps
        { sampleQueue with resources :=
            [{ name := "datasets", nameMode := "exact",
               template := .obj (some m) }] } =
      .ok { ps with volumes := ps.volumes.map (fun vol =>
              match vol.source with
              | .pvc c =>
                if c = m then { vol with source := .pvc "datasets" }
                else vol
              | .other => vol) }) := by
  constructor
  · simp only [translateResourceNames, buildResourceNameMap, List.foldlM,
      resourceActualName, mapPut, mapGet]
    norm_num
    intro vol hv
    cases hsrc : vol.source with
    | pvc c =>
      by_cases hc : c = m
      · subst hc
        simp [Volume.mk.injEq]
        decide
      · simp [Ne.symm hc, hc]
    | other => simp
  · simp only [translateResourceNames, buildResourceNameMap, List.foldlM,
      resourceActualName, mapPut, mapGet]
    norm_num
    intro vol hv
    cases hsrc : vol.source with
    | pvc c =>
      by_cases hc : c = m
      · subst hc
        simp
      · simp [Ne.symm hc, hc]
    | other => simp

/-! ## C9: divergent workspace PVC names -/

/-- Appending the -workspace suffix is injective on the base name. -/
theorem workspaceName_inj (a b : String) :
    a ++ "-workspace" = b ++ "-workspace" ↔ a = b := by
  constructor
  · intro h
    have hd := congrArg String.data h
    simp [String.data_append] at hd
    exact String.ext hd
  · intro h
    rw [h]

/-- C9: WorkspaceManager creates and checks the PVC named
job.Name-workspace, while GetWorkspacePVCName — used for the compute
job's workspace claim and by the StatusManager readiness check — yields
jobName-workspace; the two coincide exactly when the object name equals
the application-level job name, and when they differ the readiness check
(and hence the compute job's claim) points at a PVC absent from any store
holding only WorkspaceManager-created workspace PVCs. -/
theorem c9_workspace_pvc_name_divergence (job : TorchrunJob)
    (jq : TorchrunQueue) (ps : PodSpec) (w : World) :
    (wmWorkspacePVCName job = job.name ++ "-workspace" ∧
      GetWorkspacePVCName job = job.spec.jobName ++ "-workspace") ∧
    (lookupBy PVC.name w.pvcs (wmWorkspacePVCName job) = none →
      (CreateWorkspacePVC w job).pvcs.map PVC.name =
        w.pvcs.map PVC.name ++ [wmWorkspacePVCName job]) ∧
    (({ name := "workspace-pvc",
        source := .pvc (GetWorkspacePVCName job) } : Volume)
      ∈ (attachWorkspaceToTrainer job jq ps).volumes) ∧
    (wmWorkspacePVCName job = GetWorkspacePVCName job ↔
      job.name = job.spec.jobName) ∧
    (job.name ≠ job.spec.jobName →
      (∀ p ∈ w.pvcs, p.name = wmWorkspacePVCName job) →
      isWorkspaceReady w job = .error (.notFound (GetWorkspacePVCName job))) := by
  refine ⟨⟨rfl, rfl⟩, ?_, ?_, ?_, ?_⟩
  · intro habs
    simp [CreateWorkspacePVC, habs]
  · simp [attachWorkspaceToTrainer, setFirstContainer]
  · exact workspaceName_inj job.name job.spec.jobName
  · intro hne hall
    unfold isWorkspaceReady
    cases hfind : lookupBy PVC.name w.pvcs (GetWorkspacePVCName job) with
    | none => rfl
    | some p =>
      exfalso
      unfold lookupBy at hfind
      have hmem : p ∈ w.pvcs := List.mem_of_find?_eq_some hfind
      have hkey := List.find?_some hfind
      have h1 : p.name = GetWorkspacePVCName job := by
        simpa using hkey
      have h2 : p.name = wmWorkspacePVCName job := hall p hmem
      exact hne ((workspaceName_inj job.name job.spec.jobName).mp
        (h2.symm.trans h1))

def c9World : World :=
  { job := none, queues := [], pods := [], kjobs := [], created := [],
    pvcs := [{ name := "job1-workspace",
               labels := [("torchrun.ai/job-name", "job1"),
                          ("torchrun.ai/type", "workspace"),
                          ("torchrun.ai/sync-completed", "false")] }] }

/-- Witness for C9 at a concrete job whose object name (job1) differs
from its application-level name (train): the readiness check misses the
only PVC WorkspaceManager would have created. -/
theorem c9_workspace_pvc_name_witness :
    (wmWorkspacePVCName sampleJob = GetWorkspacePVCName sampleJob ↔
      sampleJob.name = sampleJob.spec.jobName) ∧
    isWorkspaceReady c9World sampleJob =
      .error (.notFound (GetWorkspacePVCName sampleJob)) :=
  ⟨(c9_workspace_pvc_name_divergence sampleJob sampleQueue samplePodSpec
      c9World).2.2.2.1,
   (c9_workspace_pvc_name_divergence sampleJob sampleQueue samplePodSpec
      c9World).2.2.2.2 (by decide) (by decide)⟩

/-! ## C1: CheckWorkspacePVCStatus on a failed sync pod -/

/-- C1 (code bug): when the workspace PVC lacks sync-completed=true and
the sync pod's phase is Failed, CheckWorkspacePVCStatus returns
ready=false with NO error — the function has no Failed branch, although
the reconciler's caller tests errors for "sync pod failed" and the spec
requires a terminal error carrying the pod's failure message.  The
pod-absent and other non-Succeeded phases return ready=false with no
error, as the claim states. -/
theorem c1_check_status_failed_pod_no_error (w : World) (job : TorchrunJob)
    (pvc : PVC) (pod : Pod)
    (hpvc : lookupBy PVC.name w.pvcs (wmWorkspacePVCName job) = some pvc)
    (hlabel : (mapGet pvc.labels "torchrun.ai/sync-completed" ==
      some "true") = false) :
    (lookupBy Pod.name w.pods (GetSyncPodName job) = some pod →
      pod.phase = .failed →
      CheckWorkspacePVCStatus w job = (.ok false, w)) ∧
    (lookupBy Pod.name w.pods (GetSyncPodName job) = none →
      CheckWorkspacePVCStatus w job = (.ok false, w)) ∧
    (lookupBy Pod.name w.pods (GetSyncPodName job) = some pod →
      pod.phase ≠ .succeeded →
      CheckWorkspacePVCStatus w job = (.ok false, w)) := by
  refine ⟨?_, ?_, ?_⟩
  · intro hpod hfail
    simp [CheckWorkspacePVCStatus, hpvc, hlabel, hpod, hfail]
  · intro hpod
    simp [CheckWorkspacePVCStatus, hpvc, hlabel, hpod]
  · intro hpod hns
    simp [CheckWorkspacePVCStatus, hpvc, hlabel, hpod, hns]

def c1FailedPod : Pod :=
  { name := "job1-sync", phase := .failed,
    message := "workspace.zip is corrupted or invalid" }

def c1World : World :=
  { c9World with pods := [c1FailedPod] }

/-- Witness for C1: at a concrete store holding an unlabelled workspace
PVC and a Failed sync pod, the check returns ready=false and no error. -/
theorem c1_check_status_failed_pod_witness :
    CheckWorkspacePVCStatus c1World sampleJob = (.ok false, c1World) :=
  (c1_check_status_failed_pod_no_error c1World sampleJob
      { name := "job1-workspace",
        labels := [("torchrun.ai/job-name", "job1"),
                   ("torchrun.ai/type", "workspace"),
                   ("torchrun.ai/sync-completed", "false")] }
      c1FailedPod (by decide) (by decide)).1 (by decide) (by decide)

/-! ## C8: deletion timestamp versus phase derivation -/

def c8DeletedJob : TorchrunJob :=
  { sampleJob with deletionTimestamp := true }

def c8World : World :=
  { job := some c8DeletedJob, queues := [], pvcs := [], pods := [],
    kjobs := [], created := [] }

/-- C8 counterexample: the part_006 UpdateStatus fetches the compute job
before the deletion check; for a job with a deletion timestamp whose
compute job is absent it derives Pending, not Deleted — so the claim
fails on that implementation. -/
theorem c8_deleted_pending_counterexample :
    c8DeletedJob.deletionTimestamp = true ∧
    worldPhase (UpdateStatusV2 c8World c8DeletedJob) = PhasePending ∧
    PhasePending ≠ PhaseDeleted := by
  refine ⟨rfl, rfl, by decide⟩

/-- C8 amended: the part_005 UpdateStatus derives Deleted on a deletion
timestamp before consulting anything — the persisted job is the input
with only its phase set, for every store — while the part_006 variant
consults the compute job first: it derives Deleted only when the compute
job exists and Pending when it is absent. -/
theorem c8_deleted_phase_amended (w : World) (job : TorchrunJob)
    (hdel : job.deletionTimestamp = true) :
    (worldPhase (UpdateStatus w job) = PhaseDeleted) ∧
    ((UpdateStatus w job).job =
      some { job with status := { job.status with phase := PhaseDeleted } }) ∧
    (∀ k, lookupBy KJob.name w.kjobs job.name = some k →
      worldPhase (UpdateStatusV2 w job) = PhaseDeleted) ∧
    (lookupBy KJob.name w.kjobs job.name = none →
      worldPhase (UpdateStatusV2 w job) = PhasePending) := by
  refine ⟨?_, ?_, ?_, ?_⟩
  · simp [UpdateStatus, hdel, updatePhase, worldPhase]
  · simp [UpdateStatus, hdel, updatePhase]
  · intro k hk
    simp [UpdateStatusV2, hk, hdel, worldPhase]
  · intro hk
    simp [UpdateStatusV2, hk, worldPhase]

def c8KJob : KJob :=
  { name := "job1", suspend := false, parallelism := 1, completions := 1,
    template := samplePodSpec, active := 0, succeeded := 0, failed := 0,
    completionTime := none }

def c8WorldK : World :=
  { c8World with kjobs := [c8KJob] }

/-- Witness for C8: the amended statement at concrete stores with and
without the compute job object. -/
theorem c8_deleted_phase_witness :
    worldPhase (UpdateStatus c8World c8DeletedJob) = PhaseDeleted ∧
    worldPhase (UpdateStatusV2 c8WorldK c8DeletedJob) = PhaseDeleted ∧
    worldPhase (UpdateStatusV2 c8World c8DeletedJob) = PhasePending :=
  ⟨(c8_deleted_phase_amended c8World c8DeletedJob (by decide)).1,
   (c8_deleted_phase_amended c8WorldK c8DeletedJob (by decide)).2.2.1
     c8KJob (by decide),
   (c8_deleted_phase_amended c8World c8DeletedJob (by decide)).2.2.2
     (by decide)⟩

/-! ## C2: phase derivation from the compute job counters -/

/-- UpdateStatus only persists the job object: every other store
collection is untouched. -/
theorem updateStatus_store_eq (w : World) (job : TorchrunJob) :
    (UpdateStatus w job).pvcs = w.pvcs ∧
    (UpdateStatus w job).pods = w.pods ∧
    (UpdateStatus w job).kjobs = w.kjobs ∧
    (UpdateStatus w job).queues = w.queues ∧
    (UpdateStatus w job).created = w.created := by
  unfold UpdateStatus
  split
  · simp [updatePhase]
  · split
    · simp [updatePreJobPhase, updatePhase]
    · simp [updateJobPhase, updatePhase]

/-- C2: for a job that is not being deleted and whose compute job exists
with suspend=false, UpdateStatus derives Running whenever the compute job
reports active replicas; with succeeded > 0 and active = 0 it derives
Succeeded and writes completionTime only when it is not already set; and
any recomputation against the same compute job state leaves the stored
completionTime unchanged. -/
theorem c2_phase_derivation (w : World) (job : TorchrunJob) (k : KJob)
    (hdel : job.deletionTimestamp = false)
    (hk : lookupBy KJob.name w.kjobs job.name = some k)
    (hsus : k.suspend = false) :
    (0 < k.active → worldPhase (UpdateStatus w job) = PhaseRunning) ∧
    (k.active = 0 → 0 < k.succeeded →
      worldPhase (UpdateStatus w job) = PhaseSucceeded ∧
      worldCompletionTime (UpdateStatus w job) =
        (if job.status.completionTime = none then k.completionTime
         else job.status.completionTime) ∧
      (∀ (w' : World) (j1 : TorchrunJob),
        w'.kjobs = w.kjobs → j1.name = job.name →
        j1.deletionTimestamp = false →
        j1.status.completionTime = worldCompletionTime (UpdateStatus w job) →
        worldCompletionTime (UpdateStatus w' j1) =
          j1.status.completionTime)) := by
  have hout : UpdateStatus w job = updateJobPhase w job k := by
    simp [UpdateStatus, hdel, hk]
  constructor
  · intro hact
    rw [hout]
    simp [updateJobPhase, updatePhase, worldPhase, hsus, hact]
  · intro hact0 hsucc
    have hphase : worldPhase (UpdateStatus w job) = PhaseSucceeded := by
      rw [hout]
      simp [updateJobPhase, updatePhase, worldPhase, hsus, hact0, hsucc]
    have hct : worldCompletionTime (UpdateStatus w job) =
        (if job.status.completionTime = none then k.completionTime
         else job.status.completionTime) := by
      rw [hout]
      cases hjct : job.status.completionTime with
      | none =>
        cases hkct : k.completionTime with
        | none =>
          simp [updateJobPhase, updatePhase, worldCompletionTime, hsus,
            hact0, hsucc, hjct, hkct]
        | some u =>
          simp [updateJobPhase, updatePhase, worldCompletionTime, hsus,
            hact0, hsucc, hjct, hkct]
      | some t =>
        simp [updateJobPhase, updatePhase, worldCompletionTime, hsus,
          hact0, hsucc, hjct]
    refine ⟨hphase, hct, ?_⟩
    intro w' j1 hkjobs hname hdel1 hct1
    have hk' : lookupBy KJob.name w'.kjobs j1.name = some k := by
      rw [hkjobs, hname]
      exact hk
    have hout' : UpdateStatus w' j1 = updateJobPhase w' j1 k := by
      simp [UpdateStatus, hdel1, hk']
    rw [hout']
    rw [hct] at hct1
    cases hjct : job.status.completionTime with
    | none =>
      rw [hjct] at hct1
      simp at hct1
      cases hkct : k.completionTime with
      | none =>
        rw [hkct] at hct1
        simp [updateJobPhase, updatePhase, worldCompletionTime, hsus,
          hact0, hsucc, hct1, hkct]
      | some u =>
        rw [hkct] at hct1
        simp [updateJobPhase, updatePhase, worldCompletionTime, hsus,
          hact0, hsucc, hct1, hkct]
    | some t =>
      rw [hjct] at hct1
      simp at hct1
      simp [updateJobPhase, updatePhase, worldCompletionTime, hsus,
        hact0, hsucc, hct1]

def c2KJobRunning : KJob :=
  { name := "job1", suspend := false, parallelism := 2, completions := 2,
    template := samplePodSpec, active := 2, succeeded := 0, failed := 0,
    completionTime := none }

def c2KJobDone : KJob :=
  { name := "job1", suspend := false, parallelism := 2, completions := 2,
    template := samplePodSpec, active := 0, succeeded := 2, failed := 0,
    completionTime := some 42 }

def c2WorldRunning : World :=
  { job := some sampleJob, queues := [], pvcs := [], pods := [],
    kjobs := [c2KJobRunning], created := [] }

def c2WorldDone : World :=
  { c2WorldRunning with kjobs := [c2KJobDone] }

/-- Witness for C2: active=2 derives Running; succeeded=2 with active=0
derives Succeeded with the completion time taken from the compute job;
recomputing with the same compute job leaves it at 42. -/
theorem c2_phase_derivation_witness :
    worldPhase (UpdateStatus c2WorldRunning sampleJob) = PhaseRunning ∧
    worldPhase (UpdateStatus c2WorldDone sampleJob) = PhaseSucceeded ∧
    worldCompletionTime (UpdateStatus c2WorldDone sampleJob) =
      (if sampleJob.status.completionTime = none then
         c2KJobDone.completionTime
       else sampleJob.status.completionTime) ∧
    worldCompletionTime
        (UpdateStatus c2WorldDone
          { sampleJob with status :=
              { sampleJob.status with completionTime := some 42 } }) =
      some 42 :=
  ⟨(c2_phase_derivation c2WorldRunning sampleJob c2KJobRunning (by decide)
      (by decide) (by decide)).1 (by decide),
   ((c2_phase_derivation c2WorldDone sampleJob c2KJobDone (by decide)
      (by decide) (by decide)).2 (by decide) (by decide)).1,
   ((c2_phase_derivation c2WorldDone sampleJob c2KJobDone (by decide)
      (by decide) (by decide)).2 (by decide) (by decide)).2.1,
   ((c2_phase_derivation c2WorldDone sampleJob c2KJobDone (by decide)
      (by decide) (by decide)).2 (by decide) (by decide)).2.2 c2WorldDone
     { sampleJob with status :=
         { sampleJob.status with completionTime := some 42 } }
     rfl rfl rfl (by decide)⟩

/-! ## C7: monotonicity of the sync-completed label -/

/-- A Go map write of key k followed by a read of k yields the written
value. -/
theorem mapGet_mapPut_self (m : List (String × String)) (k v : String) :
    mapGet (mapPut m k v) k = some v := by
  induction m with
  | nil => simp [mapPut, mapGet]
  | cons q rest ih =>
    by_cases hq : q.1 = k
    · unfold mapPut
      rw [List.find?_cons_of_pos _ (by simpa using hq)]
      simp only [Option.isSome_some, if_pos]
      unfold mapGet
      simp [hq]
    · have hstep : mapPut (q :: rest) k v = q :: mapPut rest k v := by
        unfold mapPut
        rw [List.find?_cons_of_neg _ (by simpa using hq)]
        split
        · simp [hq]
        · simp
      rw [hstep]
      unfold mapGet at ih ⊢
      rw [List.find?_cons_of_neg _ (by simpa using hq)]
      exact ih

/-- A name-preserving element transformation commutes with the by-name
lookup. -/
theorem find?_name_map (pvcs : List PVC) (f : PVC → PVC)
    (hf : ∀ p, (f p).name = p.name) (n : String) :
    (pvcs.map f).find? (fun x => x.name == n) =
      (pvcs.find? (fun x => x.name == n)).map f := by
  rw [List.find?_map]
  have hfun : ((fun x => x.name == n) ∘ f) = (fun x : PVC => x.name == n) := by
    funext q
    simp [hf q]
  rw [hfun]

/-- CreateWorkspacePVC never turns a true sync-completed label false: it
only ever appends a PVC that did not exist. -/
theorem createWorkspacePVC_label_monotone (w : World) (job : TorchrunJob)
    (n : String) (h : labelSyncCompleted w n = true) :
    labelSyncCompleted (CreateWorkspacePVC w job) n = true := by
  unfold CreateWorkspacePVC
  dsimp only
  split
  · exact h
  · unfold labelSyncCompleted lookupBy at h ⊢
    simp only [List.find?_append]
    cases hf : w.pvcs.find? (fun x => x.name == n) with
    | none =>
      rw [hf] at h
      simp at h
    | some p =>
      rw [hf] at h
      simpa using h

/-- CreateSyncPod never touches the PVCs. -/
theorem createSyncPod_pvcs_eq (w : World) (job : TorchrunJob) :
    (CreateSyncPod w job).2.pvcs = w.pvcs := by
  unfold CreateSyncPod
  dsimp only
  split
  · rfl
  · split
    · rfl
    · split
      · rfl
      · rfl

/-- The patch applied by CheckWorkspacePVCStatus only sets labels to
true, so a true sync-completed label survives it. -/
theorem checkStatus_label_monotone (w : World) (job : TorchrunJob)
    (n : String) (h : labelSyncCompleted w n = true) :
    labelSyncCompleted (CheckWorkspacePVCStatus w job).2 n = true := by
  unfold CheckWorkspacePVCStatus
  dsimp only
  split
  · exact h
  · split
    · exact h
    · split
      · exact h
      · split
        · -- the sync pod succeeded: the PVC list is mapped by the patch
          unfold labelSyncCompleted lookupBy at h ⊢
          dsimp only
          rw [find?_name_map]
          · cases hf : w.pvcs.find? (fun x => x.name == n) with
            | none =>
              rw [hf] at h
              simp at h
            | some p =>
              rw [hf] at h
              dsimp only [Option.map]
              by_cases hp : (p.name == wmWorkspacePVCName job) = true
              · rw [if_pos hp]
                simp [mapGet_mapPut_self]
              · rw [if_neg hp]
                simpa using h
          · intro p
            by_cases hp : (p.name == wmWorkspacePVCName job) = true
            · simp [hp]
            · simp [hp]
        · exact h

/-- CreateJob never touches the PVCs. -/
theorem createJob_pvcs_eq (w : World) (job : TorchrunJob)
    (jq : TorchrunQueue) :
    (CreateJob w job jq).2.pvcs = w.pvcs := by
  unfold CreateJob
  dsimp only
  split
  · rfl
  · split
    · rfl
    · split
      · rfl
      · split
        · rfl
        · rfl

/-- A world with the same PVCs reads the same label. -/
theorem labelSync_congr (w w' : World) (n : String)
    (hp : w'.pvcs = w.pvcs) :
    labelSyncCompleted w' n = labelSyncCompleted w n := by
  unfold labelSyncCompleted
  rw [hp]

/-- A full reconcile invocation keeps a true sync-completed label
true. -/
theorem reconcile_label_monotone (w : World) (n : String)
    (h : labelSyncCompleted w n = true) :
    labelSyncCompleted (Reconcile w).2 n = true := by
  unfold Reconcile
  dsimp only
  split
  · exact h
  next job heqjob =>
    split
    · exact h
    next hdel =>
      split
      · exact h
      next jq heqq =>
        have h1 : labelSyncCompleted (CreateWorkspacePVC w job) n = true :=
          createWorkspacePVC_label_monotone w job n h
        have h2 : labelSyncCompleted
            (CheckWorkspacePVCStatus (CreateWorkspacePVC w job) job).2 n =
            true :=
          checkStatus_label_monotone (CreateWorkspacePVC w job) job n h1
        split
        · next e w2 heq =>
          rw [heq] at h2
          split
          · exact h2
          · exact h2
        · next w2 heq =>
          rw [heq] at h2
          split
          · next e w3 heq2 =>
            have h3 := congrArg (fun r => r.2.pvcs) heq2
            dsimp only at h3
            rw [createJob_pvcs_eq] at h3
            unfold labelSyncCompleted at h2 ⊢
            dsimp only at h2 ⊢
            rw [← h3]
            exact h2
          · next w3 heq2 =>
            have h3 := congrArg (fun r => r.2.pvcs) heq2
            dsimp only at h3
            rw [createJob_pvcs_eq] at h3
            unfold labelSyncCompleted at h2 ⊢
            dsimp only at h2 ⊢
            rw [(updateStatus_store_eq w3 _).1, ← h3]
            exact h2
        · next w2 heq =>
          rw [heq] at h2
          split
          · next e w3 heq2 =>
            have h3 := congrArg (fun r => r.2.pvcs) heq2
            dsimp only at h3
            rw [createSyncPod_pvcs_eq] at h3
            unfold labelSyncCompleted at h2 ⊢
            dsimp only at h2 ⊢
            rw [← h3]
            exact h2
          · next w3 heq2 =>
            have h3 := congrArg (fun r => r.2.pvcs) heq2
            dsimp only at h3
            rw [createSyncPod_pvcs_eq] at h3
            unfold labelSyncCompleted at h2 ⊢
            dsimp only at h2 ⊢
            rw [(updateStatus_store_eq w3 _).1, ← h3]
            exact h2

/-- C7: once a workspace PVC carries sync-completed=true it stays true:
CreateWorkspacePVC writes false only when creating a PVC that does not
exist, CheckWorkspacePVCStatus only ever patches the label to true,
CreateSyncPod never touches the PVCs, and a whole reconcile invocation
preserves the label. -/
theorem c7_label_monotone (w : World) (job : TorchrunJob) (n : String)
    (h : labelSyncCompleted w n = true) :
    labelSyncCompleted (CreateWorkspacePVC w job) n = true ∧
    labelSyncCompleted (CreateSyncPod w job).2 n = true ∧
    labelSyncCompleted (CheckWorkspacePVCStatus w job).2 n = true ∧
    labelSyncCompleted (Reconcile w).2 n = true :=
  ⟨createWorkspacePVC_label_monotone w job n h,
   by
     rw [labelSync_congr w _ n (createSyncPod_pvcs_eq w job)]
     exact h,
   checkStatus_label_monotone w job n h,
   reconcile_label_monotone w n h⟩

def c7PVC : PVC :=
  { name := "job1-workspace",
    labels := [("torchrun.ai/job-name", "job1"),
               ("torchrun.ai/type", "workspace"),
               ("torchrun.ai/sync-completed", "true")] }

def c7World : World :=
  { job := some sampleJob, queues := [sampleQueue], pvcs := [c7PVC],
    pods := [], kjobs := [], created := [] }

/-- Witness for C7: a concrete store whose workspace PVC already carries
sync-completed=true keeps it true across every operation and the full
reconcile. -/
theorem c7_label_monotone_witness :
    labelSyncCompleted (CreateWorkspacePVC c7World sampleJob)
      "job1-workspace" = true ∧
    labelSyncCompleted (CreateSyncPod c7World sampleJob).2
      "job1-workspace" = true ∧
    labelSyncCompleted (CheckWorkspacePVCStatus c7World sampleJob).2
      "job1-workspace" = true ∧
    labelSyncCompleted (Reconcile c7World).2 "job1-workspace" = true :=
  c7_label_monotone c7World sampleJob "job1-workspace" (by decide)

/-! ## C6: reconcile idempotence — helper lemmas -/

/-- CreateWorkspacePVC leaves every non-PVC collection untouched. -/
theorem createWorkspacePVC_fields (w : World) (job : TorchrunJob) :
    (CreateWorkspacePVC w job).job = w.job ∧
    (CreateWorkspacePVC w job).queues = w.queues ∧
    (CreateWorkspacePVC w job).pods = w.pods ∧
    (CreateWorkspacePVC w job).kjobs = w.kjobs := by
  unfold CreateWorkspacePVC
  dsimp only
  split
  · exact ⟨rfl, rfl, rfl, rfl⟩
  · exact ⟨rfl, rfl, rfl, rfl⟩

/-- After CreateWorkspacePVC the workspace PVC exists. -/
theorem createWorkspacePVC_isSome (w : World) (job : TorchrunJob) :
    (lookupBy PVC.name (CreateWorkspacePVC w job).pvcs
      (wmWorkspacePVCName job)).isSome = true := by
  unfold CreateWorkspacePVC
  dsimp only
  split
  · next pvc heq => simp [heq]
  · next heq =>
    unfold lookupBy at heq ⊢
    simp [List.find?_append, heq]

/-- CreateWorkspacePVC is a no-op when the PVC already exists. -/
theorem createWorkspacePVC_skip (w : World) (job : TorchrunJob)
    (h : (lookupBy PVC.name w.pvcs (wmWorkspacePVCName job)).isSome = true) :
    CreateWorkspacePVC w job = w := by
  unfold CreateWorkspacePVC
  dsimp only
  split
  · rfl
  · next heq => rw [heq] at h; simp at h

/-- A true sync-completed label short-circuits the status check. -/
theorem checkStatus_of_label_true (w : World) (job : TorchrunJob)
    (h : labelSyncCompleted w (wmWorkspacePVCName job) = true) :
    CheckWorkspacePVCStatus w job = (.ok true, w) := by
  unfold labelSyncCompleted at h
  unfold CheckWorkspacePVCStatus
  dsimp only
  cases hfind : lookupBy PVC.name w.pvcs (wmWorkspacePVCName job) with
  | none => rw [hfind] at h; simp at h
  | some pvc =>
    rw [hfind] at h
    dsimp only at h
    simp [h]

/-- A ready result leaves every non-PVC collection untouched and
guarantees the workspace label is true afterwards. -/
theorem checkStatus_ok_true (w w2 : World) (job : TorchrunJob)
    (h : CheckWorkspacePVCStatus w job = (.ok true, w2)) :
    labelSyncCompleted w2 (wmWorkspacePVCName job) = true ∧
    w2.job = w.job ∧ w2.queues = w.queues ∧ w2.pods = w.pods ∧
    w2.kjobs = w.kjobs ∧ w2.created = w.created := by
  unfold CheckWorkspacePVCStatus at h
  dsimp only at h
  split at h
  · exact absurd h (by simp)
  · next pvc hfind =>
    split at h
    · next hlab =>
      obtain ⟨rfl⟩ : w2 = w := by
        have := congrArg Prod.snd h
        exact this.symm
      refine ⟨?_, rfl, rfl, rfl, rfl, rfl⟩
      unfold labelSyncCompleted
      rw [hfind]
      simpa using hlab
    · next hlab =>
      split at h
      · exact absurd h (by simp)
      · next pod hpod =>
        split at h
        · next hsucc =>
          have hw2 := congrArg Prod.snd h
          dsimp only at hw2
          subst hw2
          refine ⟨?_, rfl, rfl, rfl, rfl, rfl⟩
          unfold labelSyncCompleted lookupBy
          dsimp only
          rw [find?_name_map]
          · unfold lookupBy at hfind
            rw [hfind]
            dsimp only [Option.map]
            rw [if_pos (by simpa using List.find?_some hfind)]
            simp [mapGet_mapPut_self]
          · intro p
            by_cases hp : (p.name == wmWorkspacePVCName job) = true
            · simp [hp]
            · simp [hp]
        · exact absurd h (by simp)

/-- A not-ready result changes nothing, the label is not true, and any
sync pod present has not succeeded. -/
theorem checkStatus_ok_false (w w2 : World) (job : TorchrunJob)
    (h : CheckWorkspacePVCStatus w job = (.ok false, w2)) :
    w2 = w ∧
    labelSyncCompleted w (wmWorkspacePVCName job) = false ∧
    (∀ p, lookupBy Pod.name w.pods (GetSyncPodName job) = some p →
      p.phase ≠ .succeeded) := by
  unfold CheckWorkspacePVCStatus at h
  dsimp only at h
  split at h
  · exact absurd h (by simp)
  · next pvc hfind =>
    split at h
    · exact absurd h (by simp)
    · next hlab =>
      have hlabel : labelSyncCompleted w (wmWorkspacePVCName job) = false := by
        unfold labelSyncCompleted
        rw [hfind]
        simpa using hlab
      split at h
      · next hpod =>
        have hw2 := congrArg Prod.snd h
        dsimp only at hw2
        subst hw2
        refine ⟨rfl, hlabel, ?_⟩
        intro p hp
        rw [hpod] at hp
        exact absurd hp (by simp)
      · next pod hpod =>
        split at h
        · exact absurd h (by simp)
        · next hsucc =>
          have hw2 := congrArg Prod.snd h
          dsimp only at hw2
          subst hw2
          refine ⟨rfl, hlabel, ?_⟩
          intro p hp
          rw [hpod] at hp
          cases hp
          exact hsucc

/-- An error from the status check means the workspace PVC is absent. -/
theorem checkStatus_error (w w2 : World) (job : TorchrunJob) (e : OpError)
    (h : CheckWorkspacePVCStatus w job = (.error e, w2)) :
    lookupBy PVC.name w.pvcs (wmWorkspacePVCName job) = none := by
  unfold CheckWorkspacePVCStatus at h
  dsimp only at h
  split at h
  · next hfind => exact hfind
  · next pvc hfind =>
    split at h
    · exact absurd h (by simp)
    · split at h
      · exact absurd h (by simp)
      · split at h
        · exact absurd h (by simp)
        · exact absurd h (by simp)

/-- A true label implies the PVC exists. -/
theorem labelTrue_isSome (w : World) (n : String)
    (h : labelSyncCompleted w n = true) :
    (lookupBy PVC.name w.pvcs n).isSome = true := by
  unfold labelSyncCompleted at h
  cases hfind : lookupBy PVC.name w.pvcs n with
  | none => rw [hfind] at h; simp at h
  | some p => simp

/-- When the PVC exists with the label not true and any present sync pod
has not succeeded, CreateSyncPod succeeds, touches only the pods and the
log, and leaves a non-succeeded sync pod present. -/
theorem createSyncPod_post (w : World) (job : TorchrunJob) (pvc : PVC)
    (hpvc : lookupBy PVC.name w.pvcs (wmWorkspacePVCName job) = some pvc)
    (hlab : labelSyncCompleted w (wmWorkspacePVCName job) = false)
    (hex : ∀ p, lookupBy Pod.name w.pods (GetSyncPodName job) = some p →
      p.phase ≠ .succeeded) :
    ∃ w3, CreateSyncPod w job = (.ok (), w3) ∧
      w3.job = w.job ∧ w3.queues = w.queues ∧ w3.pvcs = w.pvcs ∧
      w3.kjobs = w.kjobs ∧
      (∃ p, lookupBy Pod.name w3.pods (GetSyncPodName job) = some p ∧
        p.phase ≠ .succeeded) := by
  have hlabel : (mapGet pvc.labels "torchrun.ai/sync-completed" ==
      some "true") = false := by
    unfold labelSyncCompleted at hlab
    rw [hpvc] at hlab
    simpa using hlab
  unfold CreateSyncPod
  dsimp only
  cases hpod : lookupBy Pod.name w.pods (GetSyncPodName job) with
  | some p =>
    exact ⟨w, rfl, rfl, rfl, rfl, rfl, p, hpod, hex p hpod⟩
  | none =>
    rw [hpvc]
    dsimp only
    rw [if_neg (by simp [hlabel])]
    refine ⟨_, rfl, rfl, rfl, rfl, rfl, ?_⟩
    refine ⟨{ name := GetSyncPodName job, phase := .pending,
              message := "" }, ?_, by simp⟩
    unfold lookupBy at hpod ⊢
    simp [List.find?_append, hpod]

/-- A CreateJob error leaves the store untouched. -/
theorem createJob_error_w (w w' : World) (job : TorchrunJob)
    (jq : TorchrunQueue) (e : String)
    (h : CreateJob w job jq = (.error e, w')) : w' = w := by
  unfold CreateJob at h
  dsimp only at h
  split at h
  · simp at h
    exact h.2.symm
  · split at h
    · simp at h
      exact h.2.symm
    · split at h
      · simp at h
        exact h.2.symm
      · split at h
        · simp at h
        · simp at h

/-- A CreateJob error depends only on the queue: rerunning against any
store and job yields the same error without touching the store. -/
theorem createJob_error_indep (w w'' : World) (job job'' : TorchrunJob)
    (jq : TorchrunQueue) (e : String)
    (h : CreateJob w job jq = (.error e, w)) :
    CreateJob w'' job'' jq = (.error e, w'') := by
  cases hpt : jq.podTemplateSpec with
  | none =>
    unfold CreateJob at h ⊢
    rw [hpt] at h ⊢
    dsimp only at h ⊢
    simp at h
    simp [h]
  | some ps =>
    cases hv : validatePodSpec ps with
    | error msg =>
      unfold CreateJob at h ⊢
      rw [hpt] at h ⊢
      dsimp only at h ⊢
      rw [hv] at h ⊢
      simp at h
      simp [h]
    | ok u =>
      cases u
      cases ht : translateResourceNames ps jq with
      | error msg =>
        unfold CreateJob at h ⊢
        rw [hpt] at h ⊢
        dsimp only at h ⊢
        rw [hv] at h ⊢
        dsimp only at h ⊢
        rw [ht] at h ⊢
        simp at h
        simp [h]
      | ok ps1 =>
        exfalso
        unfold CreateJob at h
        rw [hpt] at h
        dsimp only at h
        rw [hv] at h
        dsimp only at h
        rw [ht] at h
        dsimp only at h
        split at h
        · simp at h
        · simp at h

/-- A successful CreateJob leaves every collection except the batch jobs
and the log untouched, and the batch job then exists. -/
theorem createJob_ok_post (w w3 : World) (job : TorchrunJob)
    (jq : TorchrunQueue)
    (h : CreateJob w job jq = (.ok (), w3)) :
    (lookupBy KJob.name w3.kjobs job.name).isSome = true ∧
    w3.pvcs = w.pvcs ∧ w3.pods = w.pods ∧ w3.queues = w.queues ∧
    w3.job = w.job := by
  unfold CreateJob at h
  dsimp only at h
  split at h
  · simp at h
  · split at h
    · simp at h
    · split at h
      · simp at h
      · split at h
        · next kj hkj =>
          simp at h
          subst h
          exact ⟨by simp [hkj], rfl, rfl, rfl, rfl⟩
        · next hkj =>
          simp at h
          subst h
          refine ⟨?_, rfl, rfl, rfl, rfl⟩
          unfold lookupBy at hkj ⊢
          simp [List.find?_append, hkj]

/-- Once the batch job exists and the queue's template pipeline is known
to succeed, CreateJob returns success without touching the store. -/
theorem createJob_ok_of_exists (w w3 w'' : World) (job job' : TorchrunJob)
    (jq : TorchrunQueue)
    (h : CreateJob w job jq = (.ok (), w3))
    (hex : (lookupBy KJob.name w''.kjobs job'.name).isSome = true) :
    CreateJob w'' job' jq = (.ok (), w'') := by
  cases hpt : jq.podTemplateSpec with
  | none =>
    exfalso
    unfold CreateJob at h
    rw [hpt] at h
    simp at h
  | some ps =>
    cases hv : validatePodSpec ps with
    | error msg =>
      exfalso
      unfold CreateJob at h
      rw [hpt] at h
      dsimp only at h
      rw [hv] at h
      simp at h
    | ok u =>
      cases u
      cases ht : translateResourceNames ps jq with
      | error msg =>
        exfalso
        unfold CreateJob at h
        rw [hpt] at h
        dsimp only at h
        rw [hv] at h
        dsimp only at h
        rw [ht] at h
        simp at h
      | ok ps1 =>
        unfold CreateJob
        rw [hpt]
        dsimp only
        rw [hv]
        dsimp only
        rw [ht]
        dsimp only
        cases hfind : lookupBy KJob.name w''.kjobs job'.name with
        | none => rw [hfind] at hex; simp at hex
        | some kj => rfl

/-- UpdateStatus persists the job with only its status replaced. -/
theorem updateStatus_job_shape (w : World) (j : TorchrunJob) :
    ∃ st, (UpdateStatus w j).job = some { j with status := st } := by
  unfold UpdateStatus
  split
  · exact ⟨_, rfl⟩
  · split
    · exact ⟨_, rfl⟩
    · exact ⟨_, rfl⟩

/-- The pure phase function recomputed by UpdateStatus: Deleted on a
deletion timestamp; otherwise derived from the batch job's suspend flag
and counters when it exists, and from the workspace readiness check
otherwise. -/
def derivePhase (w : World) (job : TorchrunJob) : String :=
  if job.deletionTimestamp then PhaseDeleted
  else
    match lookupBy KJob.name w.kjobs job.name with
    | none =>
      match isWorkspaceReady w job with
      | .error _ => PhasePending
      | .ok true => PhaseQueued
      | .ok false => PhaseSyncing
    | some k =>
      if k.suspend then PhaseSuspended
      else if k.active > 0 then PhaseRunning
      else if k.succeeded > 0 then PhaseSucceeded
      else if k.failed > 0 then PhaseFailed
      else
        match isWorkspaceReady w job with
        | .error _ => PhasePending
        | .ok true => PhaseQueued
        | .ok false => PhaseSyncing

/-- The phase UpdateStatus persists is the pure derivation. -/
theorem worldPhase_updateStatus (w : World) (j : TorchrunJob) :
    worldPhase (UpdateStatus w j) = derivePhase w j := by
  unfold UpdateStatus derivePhase
  by_cases hdel : j.deletionTimestamp = true
  · simp [hdel, updatePhase, worldPhase]
  · rw [if_neg hdel, if_neg hdel]
    cases hk : lookupBy KJob.name w.kjobs j.name with
    | none =>
      unfold updatePreJobPhase updatePhase worldPhase
      dsimp only
    | some k =>
      unfold updateJobPhase updatePhase worldPhase
      dsimp only
      by_cases hs : k.suspend = true
      · simp [hs]
      · rw [if_neg hs, if_neg hs]
        by_cases ha : 0 < k.active
        · simp [ha]
        · rw [if_neg ha, if_neg ha]
          by_cases hsu : 0 < k.succeeded
          · simp [hsu]
          · rw [if_neg hsu, if_neg hsu]
            by_cases hf : 0 < k.failed
            · simp [hf]
            · rw [if_neg hf, if_neg hf]

/-- The readiness check depends only on the PVCs and the job spec. -/
theorem isWorkspaceReady_congr (w w' : World) (j j' : TorchrunJob)
    (hp : w'.pvcs = w.pvcs) (hs : j'.spec = j.spec) :
    isWorkspaceReady w' j' = isWorkspaceReady w j := by
  unfold isWorkspaceReady GetWorkspacePVCName
  rw [hp, hs]

/-- The pure phase derivation depends only on the batch jobs, the PVCs
and the job's identity fields. -/
theorem derivePhase_congr (w w' : World) (j j' : TorchrunJob)
    (hk : w'.kjobs = w.kjobs) (hp : w'.pvcs = w.pvcs)
    (hd : j'.deletionTimestamp = j.deletionTimestamp)
    (hn : j'.name = j.name) (hs : j'.spec = j.spec) :
    derivePhase w' j' = derivePhase w j := by
  unfold derivePhase
  rw [isWorkspaceReady_congr w w' j j' hp hs, hk, hd, hn]

/-- The status check returns unchanged-with-false when the PVC exists
with a non-true label and the sync pod is present but not succeeded. -/
theorem checkStatus_false_again (w : World) (job : TorchrunJob)
    (pvc : PVC) (p : Pod)
    (hpvc : lookupBy PVC.name w.pvcs (wmWorkspacePVCName job) = some pvc)
    (hlab : labelSyncCompleted w (wmWorkspacePVCName job) = false)
    (hpod : lookupBy Pod.name w.pods (GetSyncPodName job) = some p)
    (hns : p.phase ≠ .succeeded) :
    CheckWorkspacePVCStatus w job = (.ok false, w) := by
  have hlabel : (mapGet pvc.labels "torchrun.ai/sync-completed" ==
      some "true") = false := by
    unfold labelSyncCompleted at hlab
    rw [hpvc] at hlab
    simpa using hlab
  unfold CheckWorkspacePVCStatus
  dsimp only
  rw [hpvc]
  dsimp only
  rw [if_neg (by simp [hlabel])]
  rw [hpod]
  dsimp only
  rw [if_neg hns]

/-- CreateSyncPod is a no-op success when the sync pod already exists. -/
theorem createSyncPod_skip (w : World) (job : TorchrunJob) (p : Pod)
    (hpod : lookupBy Pod.name w.pods (GetSyncPodName job) = some p) :
    CreateSyncPod w job = (.ok (), w) := by
  unfold CreateSyncPod
  dsimp only
  rw [hpod]

/-- A reconcile of a stable ready state whose queue template is broken:
nothing is created and the phase carried on the job is untouched. -/
theorem reconcile_stable_ready_err (s : World) (j0 : TorchrunJob)
    (jq : TorchrunQueue) (e : String)
    (hsjob : s.job = some j0)
    (hdel : j0.deletionTimestamp = false)
    (hq : lookupBy TorchrunQueue.name s.queues j0.spec.queue = some jq)
    (hlab : labelSyncCompleted s (wmWorkspacePVCName j0) = true)
    (herr : ∀ (w'' : World) (job'' : TorchrunJob),
      CreateJob w'' job'' jq = (.error e, w'')) :
    (Reconcile s).2.created = s.created ∧
    worldPhase (Reconcile s).2 = worldPhase s := by
  unfold Reconcile
  rw [hsjob]
  dsimp only
  rw [if_neg (by simp [hdel]), hq]
  dsimp only
  rw [createWorkspacePVC_skip s j0 (labelTrue_isSome s _ hlab)]
  rw [checkStatus_of_label_true s j0 hlab]
  dsimp only
  rw [herr s (jobWithCondition j0 "WorkspaceReady" "True" "WorkspaceReady"
    "Workspace sync completed successfully")]
  dsimp only
  constructor
  · rfl
  · unfold worldPhase
    rw [hsjob]
    rfl

/-- A reconcile of a stable ready state whose compute job already exists
and whose queue template pipeline succeeds: nothing is created and the
phase becomes the pure derivation. -/
theorem reconcile_stable_ready_ok (s : World) (j0 : TorchrunJob)
    (jq : TorchrunQueue) (wa wb : World) (ja : TorchrunJob)
    (hsjob : s.job = some j0)
    (hdel : j0.deletionTimestamp = false)
    (hq : lookupBy TorchrunQueue.name s.queues j0.spec.queue = some jq)
    (hlab : labelSyncCompleted s (wmWorkspacePVCName j0) = true)
    (hsucc : CreateJob wa ja jq = (.ok (), wb))
    (hex : (lookupBy KJob.name s.kjobs j0.name).isSome = true) :
    (Reconcile s).2.created = s.created ∧
    worldPhase (Reconcile s).2 = derivePhase s j0 := by
  have hex' : (lookupBy KJob.name s.kjobs
      (jobWithCondition j0 "WorkspaceReady" "True" "WorkspaceReady"
        "Workspace sync completed successfully").name).isSome = true := hex
  unfold Reconcile
  rw [hsjob]
  dsimp only
  rw [if_neg (by simp [hdel]), hq]
  dsimp only
  rw [createWorkspacePVC_skip s j0 (labelTrue_isSome s _ hlab)]
  rw [checkStatus_of_label_true s j0 hlab]
  dsimp only
  rw [createJob_ok_of_exists wa wb s ja _ jq hsucc hex']
  dsimp only
  constructor
  · exact (updateStatus_store_eq s _).2.2.2.2
  · rw [worldPhase_updateStatus]
    exact derivePhase_congr s s j0 _ rfl rfl rfl rfl rfl

/-- A reconcile of a stable not-ready state (sync pod present, not
succeeded): nothing is created and the phase becomes the pure
derivation. -/
theorem reconcile_stable_notready (s : World) (j0 : TorchrunJob)
    (jq : TorchrunQueue) (pvc : PVC) (p : Pod)
    (hsjob : s.job = some j0)
    (hdel : j0.deletionTimestamp = false)
    (hq : lookupBy TorchrunQueue.name s.queues j0.spec.queue = some jq)
    (hpvc : lookupBy PVC.name s.pvcs (wmWorkspacePVCName j0) = some pvc)
    (hlab : labelSyncCompleted s (wmWorkspacePVCName j0) = false)
    (hpod : lookupBy Pod.name s.pods (GetSyncPodName j0) = some p)
    (hns : p.phase ≠ .succeeded) :
    (Reconcile s).2.created = s.created ∧
    worldPhase (Reconcile s).2 = derivePhase s j0 := by
  unfold Reconcile
  rw [hsjob]
  dsimp only
  rw [if_neg (by simp [hdel]), hq]
  dsimp only
  rw [createWorkspacePVC_skip s j0 (by rw [hpvc]; rfl)]
  rw [checkStatus_false_again s j0 pvc p hpvc hlab hpod hns]
  dsimp only
  rw [createSyncPod_skip s j0 p hpod]
  dsimp only
  constructor
  · exact (updateStatus_store_eq s _).2.2.2.2
  · rw [worldPhase_updateStatus]
    exact derivePhase_congr s s j0 _ rfl rfl rfl rfl rfl

/-- C6: invoking the job reconcile twice in succession on an otherwise
unchanged external state produces no duplicate child objects — the
second invocation's creation log equals the first's, every creation path
being check-then-create — and leaves the derived phase unchanged. -/
theorem c6_reconcile_idempotent (w : World) :
    (Reconcile (Reconcile w).2).2.created = (Reconcile w).2.created ∧
    worldPhase (Reconcile (Reconcile w).2).2 = worldPhase (Reconcile w).2 := by
  cases hjob : w.job with
  | none =>
    have h1 : Reconcile w = (.ok none, w) := by
      unfold Reconcile
      rw [hjob]
    rw [h1]
    dsimp only
    rw [h1]
    exact ⟨rfl, rfl⟩
  | some job =>
    by_cases hdel : job.deletionTimestamp = true
    · have h1 : Reconcile w = (.ok none, w) := by
        unfold Reconcile
        rw [hjob]
        dsimp only
        rw [if_pos hdel]
      rw [h1]
      dsimp only
      rw [h1]
      exact ⟨rfl, rfl⟩
    · have hdel' : job.deletionTimestamp = false := by
        simpa using hdel
      cases hq : lookupBy TorchrunQueue.name w.queues job.spec.queue with
      | none =>
        have h1 : Reconcile w = (.ok none,
            { w with
              job := some
                { jobWithCondition job "QueueNotFound" "False" "QueueNotFound"
                        ("TorchrunQueue " ++ job.spec.queue ++ " not found") with
                  status :=
                    { (jobWithCondition job "QueueNotFound" "False"
                              "QueueNotFound" ("TorchrunQueue " ++
                                job.spec.queue ++ " not found")).status with
                      phase := PhaseFailed } } }) := by
          unfold Reconcile
          rw [hjob]
          dsimp only
          rw [if_neg hdel, hq]
        rw [h1]
        dsimp only
        unfold Reconcile
        dsimp only [jobWithCondition]
        rw [if_neg hdel, hq]
        exact ⟨rfl, rfl⟩
      | some jq =>
        rcases hchk : CheckWorkspacePVCStatus (CreateWorkspacePVC w job) job
          with ⟨res, w2⟩
        obtain ⟨hw1job, hw1q, hw1pods, hw1kjobs⟩ :=
          createWorkspacePVC_fields w job
        have hpvc1 := createWorkspacePVC_isSome w job
        match res with
        | .error e =>
          exfalso
          have hnone := checkStatus_error _ _ _ _ hchk
          rw [hnone] at hpvc1
          simp at hpvc1
        | .ok true =>
          obtain ⟨hlab2, hw2job, hw2q, hw2pods, hw2kjobs, hw2created⟩ :=
            checkStatus_ok_true _ _ _ hchk
          rcases hcj : CreateJob w2 (jobWithCondition job "WorkspaceReady"
              "True" "WorkspaceReady"
              "Workspace sync completed successfully") jq
            with ⟨cres, w3⟩
          match cres with
          | .error e =>
            have hw3 : w3 = w2 := createJob_error_w _ _ _ _ _ hcj
            subst hw3
            have h1 : Reconcile w = (.err,
                { w3 with
                  job := some
                    (jobWithCondition (jobWithCondition job "WorkspaceReady"
                      "True" "WorkspaceReady"
                      "Workspace sync completed successfully")
                      "JobCreated" "False" "CreateFailed" e) }) := by
              unfold Reconcile
              rw [hjob]
              dsimp only
              rw [if_neg hdel, hq]
              dsimp only
              rw [hchk]
              dsimp only
              rw [hcj]
            rw [h1]
            dsimp only
            refine reconcile_stable_ready_err _ _ jq e rfl hdel' ?_ ?_
              (fun w'' job'' => createJob_error_indep _ _ _ _ _ _ hcj)
            · show lookupBy TorchrunQueue.name w3.queues job.spec.queue =
                some jq
              rw [hw2q, hw1q]
              exact hq
            · exact hlab2
          | .ok u =>
            cases u
            obtain ⟨hkx, hw3pvcs, hw3pods, hw3q, hw3job⟩ :=
              createJob_ok_post _ _ _ _ hcj
            obtain ⟨st1, hs1job⟩ := updateStatus_job_shape w3
              (jobWithCondition (jobWithCondition job "WorkspaceReady"
                "True" "WorkspaceReady"
                "Workspace sync completed successfully")
                "JobCreated" "True" "JobCreated"
                "Kubernetes Job created successfully")
            have h1 : Reconcile w = (.ok (some 10), UpdateStatus w3
                (jobWithCondition (jobWithCondition job "WorkspaceReady"
                  "True" "WorkspaceReady"
                  "Workspace sync completed successfully")
                  "JobCreated" "True" "JobCreated"
                  "Kubernetes Job created successfully")) := by
              unfold Reconcile
              rw [hjob]
              dsimp only
              rw [if_neg hdel, hq]
              dsimp only
              rw [hchk]
              dsimp only
              rw [hcj]
            rw [h1]
            dsimp only
            have main := reconcile_stable_ready_ok _ _ jq w2 w3 _ hs1job
              hdel' ?_ ?_ hcj ?_
            · refine ⟨main.1, ?_⟩
              rw [main.2, worldPhase_updateStatus]
              exact derivePhase_congr w3 _ _ _
                (updateStatus_store_eq w3 _).2.2.1
                (updateStatus_store_eq w3 _).1 rfl rfl rfl
            · show lookupBy TorchrunQueue.name
                (UpdateStatus w3 _).queues job.spec.queue = some jq
              rw [(updateStatus_store_eq w3 _).2.2.2.1, hw3q, hw2q, hw1q]
              exact hq
            · show labelSyncCompleted (UpdateStatus w3 _)
                (wmWorkspacePVCName job) = true
              rw [labelSync_congr w3 _ _ (updateStatus_store_eq w3 _).1,
                labelSync_congr w2 w3 _ hw3pvcs]
              exact hlab2
            · show (lookupBy KJob.name (UpdateStatus w3 _).kjobs
                job.name).isSome = true
              rw [(updateStatus_store_eq w3 _).2.2.1]
              exact hkx
        | .ok false =>
          obtain ⟨hw2eq, hlabF, hexpod⟩ := checkStatus_ok_false _ _ _ hchk
          subst hw2eq
          obtain ⟨pvc, hpvc⟩ : ∃ pvc,
              lookupBy PVC.name (CreateWorkspacePVC w job).pvcs
                (wmWorkspacePVCName job) = some pvc := by
            cases hl : lookupBy PVC.name (CreateWorkspacePVC w job).pvcs
                (wmWorkspacePVCName job) with
            | none =>
              rw [hl] at hpvc1
              simp at hpvc1
            | some pvc => exact ⟨pvc, rfl⟩
          obtain ⟨w3, hcsp, hw3job, hw3q, hw3pvcs, hw3kjobs, p, hp, hpns⟩ :=
            createSyncPod_post (CreateWorkspacePVC w job) job pvc hpvc
              hlabF hexpod
          obtain ⟨st1, hs1job⟩ := updateStatus_job_shape w3
            (jobWithCondition job "WorkspaceSync" "True" "SyncInProgress"
              "Workspace sync pod created and running")
          have h1 : Reconcile w = (.ok (some 5), UpdateStatus w3
              (jobWithCondition job "WorkspaceSync" "True" "SyncInProgress"
                "Workspace sync pod created and running")) := by
            unfold Reconcile
            rw [hjob]
            dsimp only
            rw [if_neg hdel, hq]
            dsimp only
            rw [hchk]
            dsimp only
            rw [hcsp]
          rw [h1]
          dsimp only
          have main := reconcile_stable_notready _ _ jq pvc p hs1job
            hdel' ?_ ?_ ?_ ?_ hpns
          · refine ⟨main.1, ?_⟩
            rw [main.2, worldPhase_updateStatus]
            exact derivePhase_congr w3 _ _ _
              (updateStatus_store_eq w3 _).2.2.1
              (updateStatus_store_eq w3 _).1 rfl rfl rfl
          · show lookupBy TorchrunQueue.name
              (UpdateStatus w3 _).queues job.spec.queue = some jq
            rw [(updateStatus_store_eq w3 _).2.2.2.1, hw3q, hw1q]
            exact hq
          · show lookupBy PVC.name (UpdateStatus w3 _).pvcs
              (wmWorkspacePVCName job) = some pvc
            rw [(updateStatus_store_eq w3 _).1, hw3pvcs]
            exact hpvc
          · show labelSyncCompleted (UpdateStatus w3 _)
              (wmWorkspacePVCName job) = false
            rw [labelSync_congr w3 _ _ (updateStatus_store_eq w3 _).1,
              labelSync_congr (CreateWorkspacePVC w job) w3 _ hw3pvcs]
            exact hlabF
          · show lookupBy Pod.name (UpdateStatus w3 _).pods
              (GetSyncPodName job) = some p
            rw [(updateStatus_store_eq w3 _).2.1]
            exact hp

end Torchrun
